import Mathlib

/-!
Verification development for the SentinelBot dashboard's authenticated request
pipeline and paginated collection loaders.

The embedded code is the `requestWithSession` / `buildAuthHeader` /
`handleSessionExpired` pipeline that every page repeats
(src/frontend/src/pages/Evidence.tsx, Issues.tsx, Users.tsx, Dashboard.tsx,
src/frontend/src/components/layout/TopBar.tsx, and the unnamed panels), the
page-merge / selection-reconcile logic of the device, network and project
loaders, and the `fetchEvidence` / `fetchDevices` page loaders.

The `@/lib/auth` module (getStoredSessionRecord, isSessionExpired,
refreshSession, clearStoredAuth) is not among the sources; its call results are
supplied by an explicit environment, and the one predicate whose definition a
claim depends on (`isSessionExpired`) is modelled from the spec.  Network
responses and renewal outcomes are likewise environment inputs, and the calls
the pipeline makes (fetch, refreshSession, clearStoredAuth, toast/navigate) are
recorded as an event trace so that call counts and ordering can be stated.
-/

/-- A stored session credential.  Mirrors the `AuthSession` shape built in
Login.tsx; fields that the request pipeline never reads (userId, email,
expiresIn) are omitted.  Times are in milliseconds, as `Date.now()`. -/
structure Session where
  accessToken : String
  refreshToken : String
  tokenType : String
  expiresAt : Int
deriving DecidableEq, Repr

/-- The persisted record: the session plus the remember-me flag, as consumed by
`getStoredSessionRecord()`. -/
structure SessionRecord where
  session : Session
  remember : Bool
deriving DecidableEq, Repr

/-- A network response as far as the pipeline inspects it: its status code.
`ok` is the WHATWG `Response.ok` predicate (status in 200..299). -/
structure Response where
  status : Nat
deriving DecidableEq, Repr

def Response.ok (r : Response) : Bool :=
  200 ≤ r.status && r.status < 300

/-- Modelled from the spec: `isSessionExpired` lives in `@/lib/auth`, which is
not among the sources.  Spec §4.3 step 2 gives the proactive check as
`credential.expiresAt <= now`. -/
def isSessionExpired (s : Session) (now : Int) : Bool :=
  s.expiresAt ≤ now

/-- Builds the authorization header, translated from the `buildAuthHeader`
closure in `requestWithSession` (Evidence.tsx lines 78-83):
`tokenType ? tokenType[0].toUpperCase() + tokenType.slice(1) : 'Bearer'`
followed by a single space and the access token.  The empty string is the
only falsy `tokenType` value here, and `[0]`/`slice(1)` are the first
character and the remainder. -/
def buildAuthHeader (tokenType accessToken : String) : String :=
  let normalized :=
    match tokenType.data with
    | [] => "Bearer"
    | c :: rest => String.mk (Char.toUpper c :: rest)
  normalized ++ " " ++ accessToken

/-- The observable calls a single `requestWithSession` invocation makes.
`clearAuth` is the `clearStoredAuth()` call and `notify` the toast + redirect,
both performed by `handleSessionExpired`; `fetchCall` records the
Authorization header value the issued request carries. -/
inductive Event where
  | refreshCall : Event
  | fetchCall : String → Event
  | clearAuth : Event
  | notify : Event
deriving DecidableEq, Repr

/-- The environment of one `requestWithSession` invocation: the stored record,
the current time, and oracles giving the outcome of the n-th `refreshSession`
call and the n-th `fetch` call of this invocation. -/
structure Env where
  record : Option SessionRecord
  now : Int
  refreshAt : Nat → Option Session
  fetchAt : Nat → Response

/-- Events emitted by `handleSessionExpired` (Evidence.tsx lines 50-58):
`clearStoredAuth()` then the destructive toast and redirect to /login. -/
def handleSessionExpired : List Event :=
  [Event.clearAuth, Event.notify]

/-- The proactive-expiry stage of `requestWithSession` (Evidence.tsx lines
68-76): if the stored session is expired, call `refreshSession` once; on
failure invoke `handleSessionExpired` and stop, on success adopt the renewed
session.  Returns the emitted events and the session to use, `none` meaning
the invocation returned `null` here. -/
def proactiveStep (env : Env) (record : SessionRecord) : List Event × Option Session :=
  if isSessionExpired record.session env.now then
    match env.refreshAt 0 with
    | none => (Event.refreshCall :: handleSessionExpired, none)
    | some s => ([Event.refreshCall], some s)
  else ([], some record.session)

/-- The network stage of `requestWithSession` (Evidence.tsx lines 93-109):
issue the call; on a 401, call `refreshSession` once (failure escalates to
`handleSessionExpired`), retry once with the renewed session, and treat a
second 401 as terminal.  `rBase` is the index of the next unused renewal
oracle result (1 if the proactive stage already consumed one). -/
def fetchPhase (env : Env) (rBase : Nat) (active : Session) : List Event × Option Response :=
  let resp1 := env.fetchAt 0
  let ev1 := [Event.fetchCall (buildAuthHeader active.tokenType active.accessToken)]
  if resp1.status == 401 then
    match env.refreshAt rBase with
    | none => (ev1 ++ Event.refreshCall :: handleSessionExpired, none)
    | some s2 =>
      let resp2 := env.fetchAt 1
      let ev2 := ev1 ++ [Event.refreshCall,
        Event.fetchCall (buildAuthHeader s2.tokenType s2.accessToken)]
      if resp2.status == 401 then (ev2 ++ handleSessionExpired, none)
      else (ev2, some resp2)
  else (ev1, some resp1)

/-- One invocation of `requestWithSession` (Evidence.tsx lines 60-112),
returning the emitted event trace and the result (`none` is the `null`
return).  The guard `!record?.session?.accessToken` treats both a missing
record and an empty access token as absent. -/
def requestWithSession (env : Env) : List Event × Option Response :=
  match env.record with
  | none => (handleSessionExpired, none)
  | some record =>
    if record.session.accessToken == "" then (handleSessionExpired, none)
    else
      match proactiveStep env record with
      | (evs, none) => (evs, none)
      | (evs, some active) =>
        let rBase := if isSessionExpired record.session env.now then 1 else 0
        let step := fetchPhase env rBase active
        (evs ++ step.1, step.2)

/-- Number of `refreshSession` calls in a trace. -/
def countRefresh (evs : List Event) : Nat :=
  evs.countP (fun e => e matches Event.refreshCall)

/-- Number of network calls in a trace. -/
def countFetch (evs : List Event) : Nat :=
  evs.countP (fun e => e matches Event.fetchCall _)

/-- Number of `clearStoredAuth` calls in a trace. -/
def countClear (evs : List Event) : Nat :=
  evs.countP (fun e => e matches Event.clearAuth)

/-- Number of user-notification/redirect invocations in a trace. -/
def countNotify (evs : List Event) : Nat :=
  evs.countP (fun e => e matches Event.notify)

/-- The events preceding the first network call (the whole trace when no
network call occurs). -/
def beforeFirstFetch : List Event → List Event
  | [] => []
  | Event.fetchCall _ :: _ => []
  | e :: rest => e :: beforeFirstFetch rest

/-- The events following the first network call. -/
def afterFirstFetch : List Event → List Event
  | [] => []
  | Event.fetchCall _ :: rest => rest
  | _ :: rest => afterFirstFetch rest

/-- The Authorization header values of the network calls in a trace, in
order. -/
def fetchHeaders : List Event → List String
  | [] => []
  | Event.fetchCall h :: rest => h :: fetchHeaders rest
  | _ :: rest => fetchHeaders rest

/-- Sets one property of a JS object modelled as a key-ordered association
list: an existing key keeps its position and gets the new value, a new key is
appended. -/
def objSet (obj : List (String × String)) (k v : String) : List (String × String) :=
  if obj.any (fun p => p.1 == k) then
    obj.map (fun p => if p.1 == k then (k, v) else p)
  else obj ++ [(k, v)]

/-- Spreads `extra` into `obj`, property by property in order, with JS object
literal semantics: a later property assignment overwrites an earlier one. -/
def objAssign (obj : List (String × String)) : List (String × String) → List (String × String)
  | [] => obj
  | (k, v) :: rest => objAssign (objSet obj k v) rest

/-- The value a header object gives to key `k` (keys are unique in an object,
so the first match is the value). -/
def lookupHeader (obj : List (String × String)) (k : String) : Option String :=
  (obj.find? (fun p => p.1 == k)).map (fun p => p.2)

/-- The headers object built by `executeRequest` in the variants that accept a
caller-supplied `RequestInit` (Issues.tsx lines 134-142, TopBar.tsx lines
77-85): the object literal
`{ Authorization: buildAuthHeader(...), Accept: 'application/json', ...(init?.headers ?? {}) }`. -/
def requestHeaders (tokenType accessToken : String)
    (callerHeaders : List (String × String)) : List (String × String) :=
  objAssign
    [("Authorization", buildAuthHeader tokenType accessToken),
     ("Accept", "application/json")]
    callerHeaders

/-- Modelled from the spec: the authorization header value demanded by spec
§4.3 step 3 — `tokenType` normalized to title case (first letter upper,
remainder unchanged), one space, then the access token.  Stated only for
non-empty `tokenType`; the empty case is left as the source's fallback. -/
def specAuthHeaderValue (tokenType accessToken : String) : String :=
  match tokenType.data with
  | [] => "Bearer " ++ accessToken
  | c :: rest => String.mk (Char.toUpper c :: rest) ++ " " ++ accessToken

/-- A row of a paginated list as far as the loaders inspect it: the identifier
plus an opaque payload standing for the remaining fields (`DeviceOption` is
`{id, name}`; the other row types carry more fields the merge never reads). -/
structure Item where
  id : String
  name : String
deriving DecidableEq, Repr

/-- The seen-set loop of the page merge (part_001 lines 220-228, TopBar.tsx
lines 146-154): walk the concatenated list, skip an item whose id is already
in `seen`, otherwise record the id and keep the item. -/
def mergeDedupAux : List Item → List String → List Item
  | [], _ => []
  | item :: rest, seen =>
    if item.id ∈ seen then mergeDedupAux rest seen
    else item :: mergeDedupAux rest (item.id :: seen)

/-- The page merge: `[...accumulated, ...nextItems]` deduplicated by id with
first occurrence winning (part_001 lines 218-229). -/
def mergeDedup (acc next : List Item) : List Item :=
  mergeDedupAux (acc ++ next) []

/-- Modelled from the spec: drop from a page every item whose identifier is in
`seenIds` or occurred earlier in the page (first occurrence wins). -/
def specDropSeen (seenIds : List String) : List Item → List Item
  | [] => []
  | item :: rest =>
    if item.id ∈ seenIds then specDropSeen seenIds rest
    else item :: specDropSeen (item.id :: seenIds) rest

/-- Modelled from the spec: the merge rule of §4.4 — append the new page to
the accumulated sequence, dropping any item whose identifier already occurs
earlier. -/
def specAppendPage (acc next : List Item) : List Item :=
  acc ++ specDropSeen (acc.map Item.id) next

/-- The ids of a collection are pairwise distinct. -/
def idsNodup (l : List Item) : Prop :=
  (l.map Item.id).Nodup

instance (l : List Item) : Decidable (idsNodup l) := by
  unfold idsNodup; infer_instance

/-- The selection-stabilization step run after a successful merge (part_001
lines 233-238, TopBar.tsx lines 159-164): on a non-empty collection, keep the
current selection when it is a member and non-empty, otherwise select the
first item; on an empty collection the code does nothing.  The empty string is
the JS falsy "no selection" value. -/
def reconcile (merged : List Item) (current : String) : String :=
  match merged with
  | [] => current
  | item :: rest =>
    let hasSelected := (item :: rest).any (fun i => i.id == current)
    if current == "" || !hasSelected then item.id else current

/-- A paginated list response body after JSON parsing; every field is optional
because the loaders apply `??` fallbacks to each one. -/
structure PageResponse where
  items : Option (List Item)
  total : Option Nat
  page : Option Nat
  page_size : Option Nat
deriving DecidableEq, Repr

/-- The outcome of one `requestWithSession` + `response.json()` round trip as
a loader observes it.  `thrown` covers both a rejected fetch inside
`requestWithSession` and a `json()` parse failure — both land in the loader's
`catch`.  `sessionExpired` is the `null` return. -/
inductive LoadResult where
  | sessionExpired : LoadResult
  | notOk : LoadResult
  | thrown : LoadResult
  | success : PageResponse → LoadResult
deriving DecidableEq, Repr

/-- The state of the evidence page loader (Evidence.tsx): the accumulated
items, pagination bookkeeping, the loading flag, the error message and the
`isFetchingRef` in-flight guard. -/
structure EvidenceState where
  items : List Item
  total : Nat
  page : Nat
  pageSize : Nat
  isLoading : Bool
  errorMessage : Option String
  isFetching : Bool
deriving DecidableEq, Repr

/-- One invocation of `fetchEvidence(requestedPage)` (Evidence.tsx lines
114-176) against outcome `r`, returning the new state and the
`(page, page_size)` query parameters of the request it issued (`none` when no
request was made).  The no-project branch resets items and total; the
in-flight guard returns unchanged; otherwise the request is issued with the
state's page size and the outcome is folded into the state, the `finally`
block clearing both flags. -/
def fetchEvidence (s : EvidenceState) (selectedProjectId : Option String)
    (requestedPage : Nat) (r : LoadResult) : EvidenceState × Option (Nat × Nat) :=
  match selectedProjectId with
  | none => ({ s with items := [], total := 0 }, none)
  | some _ =>
    if s.isFetching then (s, none)
    else
      let req := some (requestedPage, s.pageSize)
      match r with
      | LoadResult.sessionExpired =>
        ({ s with errorMessage := some "Session expired.",
                  isLoading := false, isFetching := false }, req)
      | LoadResult.notOk =>
        ({ s with errorMessage := some "Unable to load evidence.",
                  isLoading := false, isFetching := false }, req)
      | LoadResult.thrown =>
        ({ s with errorMessage := some "Unable to load evidence.",
                  isLoading := false, isFetching := false }, req)
      | LoadResult.success data =>
        let list := data.items.getD []
        ({ items := list,
           total := data.total.getD list.length,
           page := data.page.getD requestedPage,
           pageSize := data.page_size.getD s.pageSize,
           isLoading := false,
           errorMessage := none,
           isFetching := false }, req)

/-- `page_size` constant of the device loader (part_001 line 53). -/
def DEVICE_PAGE_SIZE : Nat := 20

/-- The state of the device loader in the live-run panel (part_001): the
accumulated options, pagination bookkeeping, the loading flag doubling as the
in-flight guard, the error message, and the current device selection (the
empty string is the JS falsy "no selection"). -/
structure DevicesState where
  devices : List Item
  devicePage : Nat
  deviceTotal : Nat
  isLoadingDevices : Bool
  deviceError : Option String
  device : String
deriving DecidableEq, Repr

/-- One invocation of `fetchDevices(page)` (part_001 lines 188-249) against
outcome `r`, returning the new state and the `(page, page_size)` parameters of
the request it issued (`none` when the in-flight guard suppressed it).  The
request always carries the constant `DEVICE_PAGE_SIZE`; on success the new
page is merged with first-occurrence dedup, `data.page_size` is never read,
and the selection is reconciled. -/
def fetchDevices (s : DevicesState) (page : Nat) (r : LoadResult) :
    DevicesState × Option (Nat × Nat) :=
  if s.isLoadingDevices then (s, none)
  else
    let req := some (page, DEVICE_PAGE_SIZE)
    match r with
    | LoadResult.sessionExpired =>
      ({ s with deviceError := some "Session expired.",
                isLoadingDevices := false }, req)
    | LoadResult.notOk =>
      ({ s with deviceError := some "Unable to load devices.",
                isLoadingDevices := false }, req)
    | LoadResult.thrown =>
      ({ s with deviceError := some "Unable to load devices.",
                isLoadingDevices := false }, req)
    | LoadResult.success data =>
      let nextItems := data.items.getD []
      let merged := mergeDedup s.devices nextItems
      ({ devices := merged,
         deviceTotal := data.total.getD merged.length,
         devicePage := data.page.getD page,
         isLoadingDevices := false,
         deviceError := none,
         device := reconcile merged s.device }, req)

/-- The network stage always begins with the network call, carrying the header
built from the session it was given. -/
theorem fetchPhase_head (env : Env) (rBase : Nat) (active : Session) :
    ∃ tail, (fetchPhase env rBase active).1 =
      Event.fetchCall (buildAuthHeader active.tokenType active.accessToken) :: tail := by
  unfold fetchPhase
  by_cases h1 : (env.fetchAt 0).status == 401
  · simp only [h1, if_true]
    cases hr : env.refreshAt rBase with
    | none => exact ⟨_, rfl⟩
    | some s2 =>
      by_cases h2 : (env.fetchAt 1).status == 401
      · simp only [h2, if_true]; exact ⟨_, rfl⟩
      · simp only [h2, if_false]; exact ⟨_, rfl⟩
  · simp only [h1, if_false]; exact ⟨_, rfl⟩

/-- Inversion of the proactive stage when it hands back a session: either the
stored session was not expired and is used as is with no events, or it was
expired and the first renewal returned the adopted session. -/
theorem proactiveStep_inv (env : Env) (record : SessionRecord) (evs : List Event)
    (active : Session) (h : proactiveStep env record = (evs, some active)) :
    (isSessionExpired record.session env.now = false ∧ evs = [] ∧ active = record.session) ∨
    (isSessionExpired record.session env.now = true ∧ evs = [Event.refreshCall] ∧
      env.refreshAt 0 = some active) := by
  unfold proactiveStep at h
  by_cases hex : isSessionExpired record.session env.now
  · right
    rw [if_pos hex] at h
    cases hr : env.refreshAt 0 with
    | none =>
      rw [hr] at h
      simp [handleSessionExpired] at h
    | some s =>
      rw [hr] at h
      simp only [Prod.mk.injEq, Option.some.injEq] at h
      exact ⟨hex, h.1.symm, congrArg some h.2⟩
  · left
    rw [if_neg hex] at h
    simp only [Prod.mk.injEq, Option.some.injEq] at h
    exact ⟨by simpa using hex, h.1.symm, h.2.symm⟩

/-- C3: when no session record (or no access token) is stored, the invocation
returns `null` immediately: zero network calls, the stored session is cleared
exactly once and the notification/redirect callback runs exactly once. -/
theorem requestWithSession_absent_record (env : Env)
    (h : env.record = none ∨
      ∃ record, env.record = some record ∧ record.session.accessToken = "") :
    (requestWithSession env).2 = none ∧
    countFetch (requestWithSession env).1 = 0 ∧
    countClear (requestWithSession env).1 = 1 ∧
    countNotify (requestWithSession env).1 = 1 := by
  rcases h with h | ⟨record, hrec, htok⟩
  · rw [requestWithSession, h]
    exact ⟨rfl, rfl, rfl, rfl⟩
  · rw [requestWithSession, hrec]
    simp only [htok]
    exact ⟨rfl, rfl, rfl, rfl⟩

theorem requestWithSession_absent_record_check :
    (requestWithSession
      { record := none, now := 0, refreshAt := fun _ => none,
        fetchAt := fun _ => { status := 200 } }).2 = none ∧
    countFetch (requestWithSession
      { record := none, now := 0, refreshAt := fun _ => none,
        fetchAt := fun _ => { status := 200 } }).1 = 0 ∧
    countClear (requestWithSession
      { record := none, now := 0, refreshAt := fun _ => none,
        fetchAt := fun _ => { status := 200 } }).1 = 1 ∧
    countNotify (requestWithSession
      { record := none, now := 0, refreshAt := fun _ => none,
        fetchAt := fun _ => { status := 200 } }).1 = 1 :=
  requestWithSession_absent_record _ (Or.inl rfl)

/-- For a non-empty token type the source's header builder computes exactly
the spec's title-case normalization. -/
theorem buildAuthHeader_eq_spec (tokenType accessToken : String) (h : tokenType ≠ "") :
    buildAuthHeader tokenType accessToken = specAuthHeaderValue tokenType accessToken := by
  obtain ⟨l⟩ := tokenType
  cases l with
  | nil => exact absurd rfl h
  | cons c rest => rfl

/-- C8: for every non-empty tokenType, the Authorization value carried by the
network call equals the tokenType normalized to title case (first character
uppercased, remainder unchanged), one space, and the access token. -/
theorem authHeader_on_wire (env : Env) (record : SessionRecord)
    (h1 : env.record = some record) (h2 : record.session.accessToken ≠ "")
    (h3 : isSessionExpired record.session env.now = false)
    (h4 : record.session.tokenType ≠ "") :
    (fetchHeaders (requestWithSession env).1).head? =
      some (specAuthHeaderValue record.session.tokenType record.session.accessToken) := by
  have htok : (record.session.accessToken == "") = false := by simp [h2]
  have hpro : proactiveStep env record = ([], some record.session) := by
    unfold proactiveStep
    rw [h3]
    simp
  have hbase : (if isSessionExpired record.session env.now = true then 1 else 0) = 0 := by
    rw [h3]
    simp
  obtain ⟨tail, htail⟩ := fetchPhase_head env 0 record.session
  simp only [requestWithSession, h1, htok, hpro, hbase, Bool.false_eq_true, if_false,
    List.nil_append]
  rw [htail]
  simp [fetchHeaders, buildAuthHeader_eq_spec _ _ h4]

theorem authHeader_on_wire_check :
    (fetchHeaders (requestWithSession
        { record :=
            some { session :=
                     { accessToken := "tok", refreshToken := "r",
                       tokenType := "bearer", expiresAt := 100 },
                   remember := true },
          now := 0, refreshAt := fun _ => none,
          fetchAt := fun _ => { status := 200 } }).1).head? =
      some (specAuthHeaderValue "bearer" "tok") :=
  authHeader_on_wire _ _ rfl (by decide) (by decide) (by decide)

/-- C2: with a stored credential, a non-expired session reaches the network
call with no renewal before it; an expired session triggers exactly one
renewal before the network call, and a failed renewal ends the invocation as
unauthenticated with no resource call issued. -/
theorem requestWithSession_proactive_refresh (env : Env) (record : SessionRecord)
    (h1 : env.record = some record) (h2 : record.session.accessToken ≠ "") :
    (isSessionExpired record.session env.now = false →
      countRefresh (beforeFirstFetch (requestWithSession env).1) = 0 ∧
      1 ≤ countFetch (requestWithSession env).1) ∧
    (isSessionExpired record.session env.now = true →
      (∀ s, env.refreshAt 0 = some s →
        countRefresh (beforeFirstFetch (requestWithSession env).1) = 1 ∧
        1 ≤ countFetch (requestWithSession env).1) ∧
      (env.refreshAt 0 = none →
        (requestWithSession env).2 = none ∧
        countFetch (requestWithSession env).1 = 0)) := by
  have htok : (record.session.accessToken == "") = false := by simp [h2]
  by_cases hex : isSessionExpired record.session env.now
  · refine ⟨fun hfalse => by rw [hfalse] at hex; exact absurd hex (by simp), fun _ => ⟨?_, ?_⟩⟩
    · intro s hs
      have hpro : proactiveStep env record = ([Event.refreshCall], some s) := by
        unfold proactiveStep
        rw [if_pos hex, hs]
      have hbase : (if isSessionExpired record.session env.now = true then 1 else 0) = 1 := by
        rw [if_pos hex]
      obtain ⟨tail, htail⟩ := fetchPhase_head env 1 s
      simp only [requestWithSession, h1, htok, Bool.false_eq_true, if_false, hpro, hbase]
      rw [htail]
      constructor
      · simp [beforeFirstFetch, countRefresh]
      · simp only [countFetch, List.cons_append, List.nil_append, List.countP_cons]
        simp
    · intro hnone
      have hpro : proactiveStep env record = (Event.refreshCall :: handleSessionExpired, none) := by
        unfold proactiveStep
        rw [if_pos hex, hnone]
      simp only [requestWithSession, h1, htok, Bool.false_eq_true, if_false, hpro]
      exact ⟨trivial, rfl⟩
  · refine ⟨fun _ => ?_, fun htrue => absurd htrue hex⟩
    have hpro : proactiveStep env record = ([], some record.session) := by
      unfold proactiveStep
      rw [if_neg hex]
    have hbase : (if isSessionExpired record.session env.now = true then 1 else 0) = 0 := by
      rw [if_neg hex]
    obtain ⟨tail, htail⟩ := fetchPhase_head env 0 record.session
    simp only [requestWithSession, h1, htok, Bool.false_eq_true, if_false, hpro, hbase]
    rw [htail]
    constructor
    · simp [beforeFirstFetch, countRefresh]
    · simp only [countFetch, List.nil_append, List.countP_cons]
      simp

theorem requestWithSession_proactive_refresh_check :
    countRefresh (beforeFirstFetch (requestWithSession { record := some { session := { accessToken := "tok", refreshToken := "r", tokenType := "bearer", expiresAt := 100 }, remember := true }, now := 500, refreshAt := fun _ => some { accessToken := "tok2", refreshToken := "r2", tokenType := "bearer", expiresAt := 900 }, fetchAt := fun _ => { status := 200 } }).1) = 1 ∧
    1 ≤ countFetch (requestWithSession { record := some { session := { accessToken := "tok", refreshToken := "r", tokenType := "bearer", expiresAt := 100 }, remember := true }, now := 500, refreshAt := fun _ => some { accessToken := "tok2", refreshToken := "r2", tokenType := "bearer", expiresAt := 900 }, fetchAt := fun _ => { status := 200 } }).1 :=
  ((requestWithSession_proactive_refresh _ _ rfl (by decide)).2 (by decide)).1 _ rfl

/-- When the first call comes back 401 and the renewal succeeds, the network
stage is: first call, one renewal, one retry with the renewed credential, and
a terminal escalation exactly when the retry is also a 401. -/
theorem fetchPhase_401 (env : Env) (rBase : Nat) (active s2 : Session)
    (h401 : (env.fetchAt 0).status = 401) (hr : env.refreshAt rBase = some s2) :
    fetchPhase env rBase active =
      (if (env.fetchAt 1).status == 401 then
        ([Event.fetchCall (buildAuthHeader active.tokenType active.accessToken),
          Event.refreshCall,
          Event.fetchCall (buildAuthHeader s2.tokenType s2.accessToken)] ++
          handleSessionExpired, none)
      else
        ([Event.fetchCall (buildAuthHeader active.tokenType active.accessToken),
          Event.refreshCall,
          Event.fetchCall (buildAuthHeader s2.tokenType s2.accessToken)],
          some (env.fetchAt 1))) := by
  by_cases h2c : (env.fetchAt 1).status == 401
  · simp [fetchPhase, h401, hr, h2c]
  · simp [fetchPhase, h401, hr, h2c]

/-- With a stored, non-empty credential that clears the proactive stage, the
invocation is the proactive events followed by the network stage. -/
theorem requestWithSession_eq (env : Env) (record : SessionRecord)
    (evs0 : List Event) (active : Session)
    (h1 : env.record = some record) (h2 : record.session.accessToken ≠ "")
    (h3 : proactiveStep env record = (evs0, some active)) :
    requestWithSession env =
      (evs0 ++ (fetchPhase env
        (if isSessionExpired record.session env.now = true then 1 else 0) active).1,
       (fetchPhase env
        (if isSessionExpired record.session env.now = true then 1 else 0) active).2) := by
  have htok : (record.session.accessToken == "") = false := by simp [h2]
  simp only [requestWithSession, h1, htok, Bool.false_eq_true, if_false, h3]

/-- C1: when the first network call returns 401, exactly one renewal follows
it and the call is retried exactly once, with the header built from the
renewed credential (and when the credential was not expired at entry that
renewal is the only one of the invocation); if the retry also returns 401 the
result is `null`, the stored session is cleared exactly once and the
notification callback runs exactly once. -/
theorem requestWithSession_reactive_401 (env : Env) (record : SessionRecord)
    (evs0 : List Event) (active s2 : Session)
    (h1 : env.record = some record) (h2 : record.session.accessToken ≠ "")
    (h3 : proactiveStep env record = (evs0, some active))
    (h401 : (env.fetchAt 0).status = 401)
    (hr : env.refreshAt
      (if isSessionExpired record.session env.now = true then 1 else 0) = some s2) :
    countFetch (requestWithSession env).1 = 2 ∧
    fetchHeaders (requestWithSession env).1 =
      [buildAuthHeader active.tokenType active.accessToken,
       buildAuthHeader s2.tokenType s2.accessToken] ∧
    countRefresh (afterFirstFetch (requestWithSession env).1) = 1 ∧
    (isSessionExpired record.session env.now = false →
      countRefresh (requestWithSession env).1 = 1) ∧
    ((env.fetchAt 1).status = 401 →
      (requestWithSession env).2 = none ∧
      countClear (requestWithSession env).1 = 1 ∧
      countNotify (requestWithSession env).1 = 1) := by
  have hEq := requestWithSession_eq env record evs0 active h1 h2 h3
  rcases proactiveStep_inv env record evs0 active h3 with ⟨hex, hevs, hact⟩ | ⟨hex, hevs, hact⟩
  · have hbase : (if isSessionExpired record.session env.now = true then 1 else 0) = 0 := by
      rw [hex]
      simp
    rw [hbase] at hEq hr
    have hphase := fetchPhase_401 env 0 active s2 h401 hr
    rw [hphase] at hEq
    by_cases h2c : (env.fetchAt 1).status = 401
    · have h2cb : ((env.fetchAt 1).status == 401) = true := by simp [h2c]
      rw [h2cb] at hEq
      simp only [eq_self_iff_true, if_true] at hEq
      rw [hEq, hevs]
      refine ⟨by simp [countFetch, handleSessionExpired],
        by simp [fetchHeaders, handleSessionExpired],
        by simp [afterFirstFetch, countRefresh, handleSessionExpired],
        fun _ => by simp [countRefresh, handleSessionExpired],
        fun _ => ⟨rfl, by simp [countClear, handleSessionExpired],
          by simp [countNotify, handleSessionExpired]⟩⟩
    · have h2cb : ((env.fetchAt 1).status == 401) = false := by simp [h2c]
      rw [h2cb] at hEq
      simp only [Bool.false_eq_true, if_false] at hEq
      rw [hEq, hevs]
      refine ⟨by simp [countFetch], by simp [fetchHeaders],
        by simp [afterFirstFetch, countRefresh],
        fun _ => by simp [countRefresh],
        fun hx => absurd hx h2c⟩
  · have hbase : (if isSessionExpired record.session env.now = true then 1 else 0) = 1 := by
      rw [hex]
      simp
    rw [hbase] at hEq hr
    have hphase := fetchPhase_401 env 1 active s2 h401 hr
    rw [hphase] at hEq
    by_cases h2c : (env.fetchAt 1).status = 401
    · have h2cb : ((env.fetchAt 1).status == 401) = true := by simp [h2c]
      rw [h2cb] at hEq
      simp only [eq_self_iff_true, if_true] at hEq
      rw [hEq, hevs]
      refine ⟨by simp [countFetch, handleSessionExpired],
        by simp [fetchHeaders, handleSessionExpired],
        by simp [afterFirstFetch, countRefresh, handleSessionExpired],
        fun hfalse => by rw [hfalse] at hex; simp at hex,
        fun _ => ⟨rfl, by simp [countClear, handleSessionExpired],
          by simp [countNotify, handleSessionExpired]⟩⟩
    · have h2cb : ((env.fetchAt 1).status == 401) = false := by simp [h2c]
      rw [h2cb] at hEq
      simp only [Bool.false_eq_true, if_false] at hEq
      rw [hEq, hevs]
      refine ⟨by simp [countFetch], by simp [fetchHeaders],
        by simp [afterFirstFetch, countRefresh],
        fun hfalse => by rw [hfalse] at hex; simp at hex,
        fun hx => absurd hx h2c⟩

theorem requestWithSession_reactive_401_check :
    countFetch (requestWithSession { record := some { session := { accessToken := "tok", refreshToken := "r", tokenType := "bearer", expiresAt := 100 }, remember := true }, now := 0, refreshAt := fun _ => some { accessToken := "tok2", refreshToken := "r2", tokenType := "bearer", expiresAt := 900 }, fetchAt := fun _ => { status := 401 } }).1 = 2 ∧
    countRefresh (afterFirstFetch (requestWithSession { record := some { session := { accessToken := "tok", refreshToken := "r", tokenType := "bearer", expiresAt := 100 }, remember := true }, now := 0, refreshAt := fun _ => some { accessToken := "tok2", refreshToken := "r2", tokenType := "bearer", expiresAt := 900 }, fetchAt := fun _ => { status := 401 } }).1) = 1 ∧
    countRefresh (requestWithSession { record := some { session := { accessToken := "tok", refreshToken := "r", tokenType := "bearer", expiresAt := 100 }, remember := true }, now := 0, refreshAt := fun _ => some { accessToken := "tok2", refreshToken := "r2", tokenType := "bearer", expiresAt := 900 }, fetchAt := fun _ => { status := 401 } }).1 = 1 ∧
    (requestWithSession { record := some { session := { accessToken := "tok", refreshToken := "r", tokenType := "bearer", expiresAt := 100 }, remember := true }, now := 0, refreshAt := fun _ => some { accessToken := "tok2", refreshToken := "r2", tokenType := "bearer", expiresAt := 900 }, fetchAt := fun _ => { status := 401 } }).2 = none ∧
    countClear (requestWithSession { record := some { session := { accessToken := "tok", refreshToken := "r", tokenType := "bearer", expiresAt := 100 }, remember := true }, now := 0, refreshAt := fun _ => some { accessToken := "tok2", refreshToken := "r2", tokenType := "bearer", expiresAt := 900 }, fetchAt := fun _ => { status := 401 } }).1 = 1 ∧
    countNotify (requestWithSession { record := some { session := { accessToken := "tok", refreshToken := "r", tokenType := "bearer", expiresAt := 100 }, remember := true }, now := 0, refreshAt := fun _ => some { accessToken := "tok2", refreshToken := "r2", tokenType := "bearer", expiresAt := 900 }, fetchAt := fun _ => { status := 401 } }).1 = 1 :=
  let h := requestWithSession_reactive_401
    { record := some { session := { accessToken := "tok", refreshToken := "r", tokenType := "bearer", expiresAt := 100 }, remember := true }, now := 0, refreshAt := fun _ => some { accessToken := "tok2", refreshToken := "r2", tokenType := "bearer", expiresAt := 900 }, fetchAt := fun _ => { status := 401 } }
    { session := { accessToken := "tok", refreshToken := "r", tokenType := "bearer", expiresAt := 100 }, remember := true }
    []
    { accessToken := "tok", refreshToken := "r", tokenType := "bearer", expiresAt := 100 }
    { accessToken := "tok2", refreshToken := "r2", tokenType := "bearer", expiresAt := 900 }
    rfl (by decide) rfl rfl rfl
  ⟨h.1, h.2.2.1, h.2.2.2.1 rfl, (h.2.2.2.2 rfl).1, (h.2.2.2.2 rfl).2.1, (h.2.2.2.2 rfl).2.2⟩

/-- Rewriting the value at key `upd` in place leaves the value of a different
key `k` unchanged. -/
theorem lookupHeader_mapSet (obj : List (String × String)) (k upd v : String)
    (h : upd ≠ k) :
    lookupHeader (obj.map (fun p => if p.1 == upd then (upd, v) else p)) k =
      lookupHeader obj k := by
  induction obj with
  | nil => rfl
  | cons p rest ih =>
    simp only [lookupHeader] at ih ⊢
    cases hp : p.1 == upd with
    | true =>
      have hpupd : p.1 = upd := by simpa using hp
      have h1 : (upd == k) = false := by simp [h]
      have h2 : (p.1 == k) = false := by simp [hpupd, h]
      simp only [List.map_cons, hp, eq_self_iff_true, if_true, List.find?, h1, h2]
      exact ih
    | false =>
      simp only [List.map_cons, hp, Bool.false_eq_true, if_false, List.find?]
      cases hpk : p.1 == k
      · exact ih
      · rfl

/-- Appending an entry with a different key leaves the value of `k`
unchanged. -/
theorem lookupHeader_append_other (obj : List (String × String)) (k upd v : String)
    (h : upd ≠ k) :
    lookupHeader (obj ++ [(upd, v)]) k = lookupHeader obj k := by
  induction obj with
  | nil =>
    have h1 : (upd == k) = false := by simp [h]
    simp [lookupHeader, List.find?, h1]
  | cons p rest ih =>
    simp only [lookupHeader, List.cons_append, List.find?] at ih ⊢
    cases hpk : p.1 == k
    · exact ih
    · rfl

/-- Setting a property with a different key leaves the value of `k`
unchanged. -/
theorem lookupHeader_objSet_other (obj : List (String × String)) (k upd v : String)
    (h : upd ≠ k) :
    lookupHeader (objSet obj upd v) k = lookupHeader obj k := by
  unfold objSet
  split
  · exact lookupHeader_mapSet obj k upd v h
  · exact lookupHeader_append_other obj k upd v h

/-- Spreading properties none of which is keyed `k` leaves the value of `k`
unchanged. -/
theorem lookupHeader_objAssign (obj extra : List (String × String)) (k : String)
    (h : ∀ p ∈ extra, p.1 ≠ k) :
    lookupHeader (objAssign obj extra) k = lookupHeader obj k := by
  induction extra generalizing obj with
  | nil => rfl
  | cons p rest ih =>
    obtain ⟨pk, pv⟩ := p
    rw [objAssign]
    rw [ih (objSet obj pk pv) (fun q hq => h q (List.mem_cons_of_mem _ hq))]
    exact lookupHeader_objSet_other obj k pk pv (h (pk, pv) (List.mem_cons_self _ _))

/-- C4 counterexample: a caller-supplied `Authorization` header overrides the
one built from the credential, because the caller's headers are spread after
the defaults in the object literal. -/
theorem requestHeaders_caller_override :
    lookupHeader (requestHeaders "bearer" "tok" [("Authorization", "Basic evil")])
      "Authorization" = some "Basic evil" ∧
    buildAuthHeader "bearer" "tok" = "Bearer tok" ∧
    ("Basic evil" : String) ≠ "Bearer tok" := by
  refine ⟨rfl, ?_, by decide⟩
  rfl

/-- C4 amended: caller headers are merged after the `Authorization` and
`Accept` defaults, so they can override them; when the caller supplies no
`Authorization` (resp. `Accept`) key — as every caller in the repository —
the issued request carries the credential header (resp.
`Accept: application/json`). -/
theorem requestHeaders_defaults_preserved (tokenType accessToken : String)
    (callerHeaders : List (String × String))
    (hAuth : ∀ p ∈ callerHeaders, p.1 ≠ "Authorization") :
    lookupHeader (requestHeaders tokenType accessToken callerHeaders) "Authorization" =
      some (buildAuthHeader tokenType accessToken) ∧
    ((∀ p ∈ callerHeaders, p.1 ≠ "Accept") →
      lookupHeader (requestHeaders tokenType accessToken callerHeaders) "Accept" =
        some "application/json") := by
  constructor
  · rw [requestHeaders, lookupHeader_objAssign _ _ _ hAuth]
    rfl
  · intro hAcc
    rw [requestHeaders, lookupHeader_objAssign _ _ _ hAcc]
    rfl

theorem requestHeaders_defaults_preserved_check :
    lookupHeader (requestHeaders "bearer" "tok" [("Content-Type", "application/json")])
      "Authorization" = some (buildAuthHeader "bearer" "tok") ∧
    lookupHeader (requestHeaders "bearer" "tok" [("Content-Type", "application/json")])
      "Accept" = some "application/json" :=
  ⟨(requestHeaders_defaults_preserved "bearer" "tok" _ (by decide)).1,
   (requestHeaders_defaults_preserved "bearer" "tok" _ (by decide)).2 (by decide)⟩

/-- The seen-set loop only consults membership of `seen`, so any two seen
lists with the same members give the same result. -/
theorem mergeDedupAux_congr (l : List Item) (s t : List String)
    (h : ∀ x, x ∈ s ↔ x ∈ t) : mergeDedupAux l s = mergeDedupAux l t := by
  induction l generalizing s t with
  | nil => rfl
  | cons item rest ih =>
    simp only [mergeDedupAux]
    by_cases hm : item.id ∈ s
    · rw [if_pos hm, if_pos ((h item.id).1 hm)]
      exact ih s t h
    · rw [if_neg hm, if_neg (fun hx => hm ((h item.id).2 hx))]
      refine congrArg (List.cons item) (ih _ _ ?_)
      intro x
      simp only [List.mem_cons]
      exact or_congr Iff.rfl (h x)

/-- Running the seen-set loop over a duplicate-free accumulated prefix that
avoids `seen` keeps the prefix intact and continues on the new page with the
prefix's ids added to the seen set. -/
theorem mergeDedupAux_append (acc : List Item) (next : List Item) (seen : List String)
    (hs : ∀ a ∈ acc, a.id ∉ seen) (hnd : idsNodup acc) :
    mergeDedupAux (acc ++ next) seen =
      acc ++ mergeDedupAux next (acc.map Item.id ++ seen) := by
  induction acc generalizing seen with
  | nil => simp
  | cons a acc ih =>
    have ha : a.id ∉ seen := hs a (List.mem_cons_self _ _)
    have hnodup := hnd
    rw [idsNodup, List.map_cons, List.nodup_cons] at hnodup
    obtain ⟨hnotin, hnd2⟩ := hnodup
    have hs2 : ∀ b ∈ acc, b.id ∉ (a.id :: seen) := by
      intro b hb hmem
      rcases List.mem_cons.mp hmem with hEqId | hmem2
      · exact hnotin (hEqId ▸ List.mem_map_of_mem Item.id hb)
      · exact hs b (List.mem_cons_of_mem _ hb) hmem2
    simp only [List.cons_append, mergeDedupAux, if_neg ha, List.append_eq]
    rw [ih (a.id :: seen) hs2 hnd2]
    simp only [List.map_cons, List.cons_append]
    refine congrArg (List.cons a) (congrArg (acc ++ ·) ?_)
    refine mergeDedupAux_congr next _ _ ?_
    intro x
    simp only [List.mem_append, List.mem_cons]
    tauto

/-- The source's seen-set loop is the spec's drop-already-seen filter. -/
theorem mergeDedupAux_eq_specDropSeen (l : List Item) (seen : List String) :
    mergeDedupAux l seen = specDropSeen seen l := by
  induction l generalizing seen with
  | nil => rfl
  | cons item rest ih =>
    simp only [mergeDedupAux, specDropSeen]
    by_cases hm : item.id ∈ seen
    · rw [if_pos hm, if_pos hm]
      exact ih seen
    · rw [if_neg hm, if_neg hm]
      exact congrArg (List.cons item) (ih _)

/-- C5: on a duplicate-free accumulated collection, merging a new page appends
the page's items while dropping exactly those whose identifier already occurs
earlier (in the accumulated sequence or earlier in the page), preserving order
and keeping the first occurrence. -/
theorem mergeDedup_is_specAppendPage (acc next : List Item) (h : idsNodup acc) :
    mergeDedup acc next = specAppendPage acc next := by
  rw [mergeDedup, specAppendPage, mergeDedupAux_append acc next [] (by simp) h,
    List.append_nil, mergeDedupAux_eq_specDropSeen]

theorem mergeDedup_is_specAppendPage_check :
    idsNodup [{ id := "1", name := "a" }, { id := "2", name := "b" }] ∧
    mergeDedup [{ id := "1", name := "a" }, { id := "2", name := "b" }]
        [{ id := "2", name := "b" }, { id := "3", name := "c" }] =
      specAppendPage [{ id := "1", name := "a" }, { id := "2", name := "b" }]
        [{ id := "2", name := "b" }, { id := "3", name := "c" }] ∧
    mergeDedup [{ id := "1", name := "a" }, { id := "2", name := "b" }]
        [{ id := "2", name := "b" }, { id := "3", name := "c" }] =
      [{ id := "1", name := "a" }, { id := "2", name := "b" }, { id := "3", name := "c" }] :=
  ⟨by decide, mergeDedup_is_specAppendPage _ _ (by decide), by decide⟩

/-- C7 counterexample: on an empty collection the stabilizer leaves the stale
selection in place instead of clearing it — the guard `merged.length > 0`
skips the whole reconciliation, so the selection does not become none. -/
theorem reconcile_empty_keeps_selection :
    reconcile ([] : List Item) "z" = "z" ∧ ("z" : String) ≠ "" := by
  exact ⟨rfl, by decide⟩

/-- C7 amended: a selection present in the collection (and non-empty) is
preserved unchanged; an absent or empty selection on a non-empty collection
moves to the first item; on an empty collection the selection is left
unchanged rather than reset to none. -/
theorem reconcile_selection_policy (coll : List Item) (sel : String) :
    (sel ≠ "" → sel ∈ coll.map Item.id → reconcile coll sel = sel) ∧
    (∀ first, coll.head? = some first →
      (sel = "" ∨ sel ∉ coll.map Item.id) → reconcile coll sel = first.id) ∧
    (coll = [] → reconcile coll sel = sel) := by
  refine ⟨?_, ?_, ?_⟩
  · intro hne hmem
    cases coll with
    | nil => simp at hmem
    | cons item rest =>
      have hsel : ((item :: rest).any fun i => i.id == sel) = true := by
        simp only [List.any_eq_true, beq_iff_eq]
        simp only [List.map_cons, List.mem_cons] at hmem
        rcases hmem with hmem | hmem
        · exact ⟨item, List.mem_cons_self _ _, hmem.symm⟩
        · obtain ⟨b, hb, hbid⟩ := List.mem_map.mp hmem
          exact ⟨b, List.mem_cons_of_mem _ hb, hbid⟩
      have hne2 : (sel == "") = false := by simp [hne]
      simp only [reconcile, hsel, hne2, Bool.not_true, Bool.or_false, Bool.false_eq_true,
        if_false]
  · intro first hfirst hab
    cases coll with
    | nil => simp at hfirst
    | cons item rest =>
      have hfi : item = first := by simpa using hfirst
      rcases hab with hab | hab
      · simp only [reconcile, hab, hfi]
        simp
      · have hsel : ((item :: rest).any fun i => i.id == sel) = false := by
          simp only [List.any_eq_false, beq_iff_eq]
          intro b hb hbid
          exact hab (hbid ▸ List.mem_map_of_mem Item.id hb)
        rw [hfi] at hsel ⊢
        simp only [reconcile, hsel, Bool.not_false, Bool.or_true, if_true]
  · intro hnil
    rw [hnil]
    rfl

theorem reconcile_selection_policy_check :
    reconcile [{ id := "a", name := "A" }, { id := "b", name := "B" }] "b" = "b" ∧
    reconcile [{ id := "a", name := "A" }, { id := "b", name := "B" }] "z" = "a" :=
  ⟨(reconcile_selection_policy _ "b").1 (by decide) (by decide),
   (reconcile_selection_policy _ "z").2.1 { id := "a", name := "A" } rfl
     (Or.inr (by decide))⟩

/-- C6 counterexample: a `fetchEvidence` call made while a request is in
flight is not a no-op when no project is selected — the no-project reset runs
before the in-flight guard and clears the accumulated items and total. -/
theorem fetchEvidence_inflight_not_noop :
    (fetchEvidence
      { items := [{ id := "1", name := "a" }], total := 1, page := 1, pageSize := 25,
        isLoading := true, errorMessage := none, isFetching := true }
      none 2 LoadResult.thrown).1 ≠
    { items := [{ id := "1", name := "a" }], total := 1, page := 1, pageSize := 25,
      isLoading := true, errorMessage := none, isFetching := true } := by
  decide

/-- C6 amended: while a request is in flight, a further `fetchEvidence` call
with a project selected, and any further `fetchDevices` call, returns with the
state unchanged and issues no network request; only the evidence loader's
no-project branch escapes the guard. -/
theorem inflight_guard_noop (s : EvidenceState) (p : String) (n : Nat) (r : LoadResult)
    (d : DevicesState) (m : Nat) (q : LoadResult)
    (hs : s.isFetching = true) (hd : d.isLoadingDevices = true) :
    fetchEvidence s (some p) n r = (s, none) ∧ fetchDevices d m q = (d, none) := by
  constructor
  · simp [fetchEvidence, hs]
  · simp [fetchDevices, hd]

theorem inflight_guard_noop_check :
    fetchEvidence
      { items := [], total := 0, page := 1, pageSize := 25, isLoading := true,
        errorMessage := none, isFetching := true } (some "proj") 2 LoadResult.thrown =
      ({ items := [], total := 0, page := 1, pageSize := 25, isLoading := true,
         errorMessage := none, isFetching := true }, none) ∧
    fetchDevices
      { devices := [], devicePage := 0, deviceTotal := 0, isLoadingDevices := true,
        deviceError := none, device := "" } 2 LoadResult.thrown =
      ({ devices := [], devicePage := 0, deviceTotal := 0, isLoadingDevices := true,
         deviceError := none, device := "" }, none) :=
  inflight_guard_noop _ "proj" 2 _ _ 2 _ rfl rfl

/-- C9 counterexample: the device loader ignores the page size carried by the
server response — after a page answered with `page_size = 50` the next request
still asks for the constant page size 20. -/
theorem fetchDevices_ignores_server_page_size :
    (fetchDevices
      (fetchDevices
        { devices := [], devicePage := 0, deviceTotal := 0, isLoadingDevices := false,
          deviceError := none, device := "" }
        1
        (LoadResult.success
          { items := some [{ id := "d1", name := "Pixel" }], total := some 60,
            page := some 1, page_size := some 50 })).1
      2 LoadResult.notOk).2 = some (2, 20) ∧ (20 : Nat) ≠ 50 := by
  decide

/-- C9 amended: the evidence loader adopts a server-supplied page size and
every request it issues uses its current page size, so an adopted size is used
by every subsequent request; the device loader instead always requests the
constant `DEVICE_PAGE_SIZE` and never reads the response's page size. -/
theorem page_size_policy (s s2 : EvidenceState) (p p2 : String) (n n2 m : Nat)
    (data : PageResponse) (sz : Nat) (r2 rq : LoadResult) (d : DevicesState)
    (h : s.isFetching = false) (hd : data.page_size = some sz)
    (h2 : s2.isFetching = false) (hdl : d.isLoadingDevices = false) :
    (fetchEvidence s (some p) n (LoadResult.success data)).1.pageSize = sz ∧
    (fetchEvidence s2 (some p2) n2 r2).2 = some (n2, s2.pageSize) ∧
    (fetchDevices d m rq).2 = some (m, DEVICE_PAGE_SIZE) := by
  refine ⟨?_, ?_, ?_⟩
  · simp [fetchEvidence, h, hd]
  · cases r2 <;> simp [fetchEvidence, h2]
  · cases rq <;> simp [fetchDevices, hdl]

theorem page_size_policy_check :
    (fetchEvidence
      { items := [], total := 0, page := 1, pageSize := 25, isLoading := false,
        errorMessage := none, isFetching := false }
      (some "proj") 1
      (LoadResult.success
        { items := some [], total := some 0, page := some 1, page_size := some 50 })).1.pageSize
      = 50 ∧
    (fetchEvidence
      { items := [], total := 0, page := 1, pageSize := 50, isLoading := false,
        errorMessage := none, isFetching := false }
      (some "proj") 2 LoadResult.notOk).2 = some (2, 50) ∧
    (fetchDevices
      { devices := [], devicePage := 0, deviceTotal := 0, isLoadingDevices := false,
        deviceError := none, device := "" } 1 LoadResult.notOk).2 =
      some (1, DEVICE_PAGE_SIZE) :=
  page_size_policy _ _ "proj" "proj" 1 2 1 _ 50 _ _ _ rfl rfl rfl rfl

/-- A load outcome that did not succeed: the session-expired `null` result, a
non-OK response status, or a thrown network/parse error. -/
def isFailure (r : LoadResult) : Bool :=
  match r with
  | LoadResult.success _ => false
  | _ => true

/-- C10: a `loadPage` invocation that does not complete successfully leaves
the accumulated items, total, current page and page size of the loader exactly
as they were (shown for the evidence loader, and for the device loader whose
page size is a constant). -/
theorem loader_failure_preserves_state (s : EvidenceState) (p : String) (n : Nat)
    (d : DevicesState) (m : Nat) (r : LoadResult) (hr : isFailure r = true) :
    (fetchEvidence s (some p) n r).1.items = s.items ∧
    (fetchEvidence s (some p) n r).1.total = s.total ∧
    (fetchEvidence s (some p) n r).1.page = s.page ∧
    (fetchEvidence s (some p) n r).1.pageSize = s.pageSize ∧
    (fetchDevices d m r).1.devices = d.devices ∧
    (fetchDevices d m r).1.deviceTotal = d.deviceTotal ∧
    (fetchDevices d m r).1.devicePage = d.devicePage := by
  cases r with
  | success data => exact absurd hr (by simp [isFailure])
  | sessionExpired =>
    cases hs : s.isFetching <;> cases hdl : d.isLoadingDevices <;>
      simp [fetchEvidence, fetchDevices, hs, hdl]
  | notOk =>
    cases hs : s.isFetching <;> cases hdl : d.isLoadingDevices <;>
      simp [fetchEvidence, fetchDevices, hs, hdl]
  | thrown =>
    cases hs : s.isFetching <;> cases hdl : d.isLoadingDevices <;>
      simp [fetchEvidence, fetchDevices, hs, hdl]

theorem loader_failure_preserves_state_check :
    (fetchEvidence
      { items := [{ id := "1", name := "a" }], total := 7, page := 3, pageSize := 25,
        isLoading := false, errorMessage := none, isFetching := false }
      (some "proj") 4 LoadResult.sessionExpired).1.items = [{ id := "1", name := "a" }] ∧
    (fetchEvidence
      { items := [{ id := "1", name := "a" }], total := 7, page := 3, pageSize := 25,
        isLoading := false, errorMessage := none, isFetching := false }
      (some "proj") 4 LoadResult.sessionExpired).1.total = 7 ∧
    (fetchDevices
      { devices := [{ id := "d1", name := "Pixel" }], devicePage := 1, deviceTotal := 9,
        isLoadingDevices := false, deviceError := none, device := "d1" }
      2 LoadResult.sessionExpired).1.devices = [{ id := "d1", name := "Pixel" }] :=
  let h := loader_failure_preserves_state
    { items := [{ id := "1", name := "a" }], total := 7, page := 3, pageSize := 25,
      isLoading := false, errorMessage := none, isFetching := false }
    "proj" 4
    { devices := [{ id := "d1", name := "Pixel" }], devicePage := 1, deviceTotal := 9,
      isLoadingDevices := false, deviceError := none, device := "d1" }
    2 LoadResult.sessionExpired rfl
  ⟨h.1, h.2.1, h.2.2.2.2.1⟩
